import Mathlib

/-!
Verification of the dvrtl front end (src/syntax.py, src/transformer.py).

The transformer is dynamically typed Python, so the embedding uses one
universal value type `Obj` mirroring the concrete AST classes of
syntax.py, an explicit error type `Err` for the exceptions a transform
pass can raise (Python `assert` failures are named after the error kind
the failing check enforces, `TypeError`/`IndexError`/`ValueError` keep
their Python names), and an allocation counter to model Python object
identity: `Symbol` defines no `__eq__`, so `==` between two symbols is
physical identity, which the embedding renders as equality of allocation
ids.
-/

namespace DV

/-- Errors a transform pass can raise.  `duplicateDefinition`,
`unknownModule`, `arityMismatch`, `nonCallable` name the transformer's
and `Inst.__init__`'s assertion failures; `typeError`, `valueError`,
`indexError`, `attributeError`, `nameError` are the corresponding
Python runtime errors; `malformedTree` models the defensive isinstance
assertions; `outOfFuel` is an artifact of the bounded tree walk. -/
inductive Err where
  | typeError
  | valueError
  | indexError
  | attributeError
  | nameError
  | malformedTree
  | duplicateDefinition
  | unknownModule
  | arityMismatch
  | nonCallable
  | outOfFuel
  deriving DecidableEq, Repr

/-- Universal value type for the transformer's world.  Each constructor
mirrors one concrete class of syntax.py (plus `token` for lark tokens,
`list` for Python lists, `none` for Python None, and `body`, the
(statements, out) pair of a module body).  `sym` carries the allocation
id modelling Python object identity, the symbol name, and the bound
statement (`Obj.none` models a null definition). -/
inductive Obj where
  | none
  | token (v : String)
  | zero
  | one
  | sym (oid : Nat) (nm : String) (expr : Obj)
  | reg (nm : String) (init next : Obj)
  | bind (nm : String) (e : Obj)
  | module (args : List Obj) (contract : Obj) (stmts : List Obj) (ot : Obj)
  | inst (c m : Obj) (args : List Obj)
  | circuit (b : Obj)
  | contract (pre post : Obj)
  | precond (cond : Obj)
  | postcond (cond : Obj)
  | res
  | out (e : Obj)
  | body (stmts : List Obj) (ot : Obj)
  | verif (nm : String) (cond : Obj)
  | eop (nm : String) (ops : List Obj)
  | ebinop (nm : String) (lhs rhs : Obj)
  | aop (nm : String) (ops : List Obj)
  | abinop (nm : String) (lhs rhs : Obj)
  | list (xs : List Obj)
  deriving Repr

mutual

/-- Serialization, the union of the `serialize` methods of syntax.py.
Leaf nodes print their name (`Node.serialize`); `Reg`, `Bind`, `Out`
and `Verif` follow their overrides; `PreCond`/`PostCond` follow
`Contract.serialize` with their string names `req`/`ens`; `EOp`/`AOp`
fold their operand list with a space before each operand (the `reduce`
in the source, rendered as the equivalent right recursion
`serializeOps`); `EBinOp`/`ABinOp` override the variadic form with
infix `lhs name rhs`.  `Module` and `Inst` define no override, so they
fall back to `Node.serialize`, printing just their name (`mod`,
`inst`).  Python values that are not AST nodes (`None`, tokens, lists)
have no `serialize` at all, and a bare `Contract` as the transformer
builds it stores the `PreCond` object in its `name` field, so its
serialization would interpolate a machine-dependent object repr; the
embedding totalizes all of these to the empty string (none of them is
serialized by the program or by the theorems below). -/
def serializeObj : Obj → String
  | .none => ""
  | .token v => v
  | .zero => "0"
  | .one => "1"
  | .sym _ nm _ => nm
  | .reg nm i n => nm ++ " -> " ++ serializeObj i ++ ", " ++ serializeObj n
  | .bind nm e => nm ++ " = " ++ serializeObj e
  | .module _ _ _ _ => "mod"
  | .inst _ _ _ => "inst"
  | .circuit _ => ""
  | .contract _ _ => ""
  | .precond c => "req " ++ serializeObj c
  | .postcond c => "ens " ++ serializeObj c
  | .res => "res"
  | .out e => "out " ++ serializeObj e
  | .body _ _ => ""
  | .verif nm c => nm ++ " " ++ serializeObj c
  | .eop nm ops => nm ++ " " ++ serializeOps ops
  | .ebinop nm l r => serializeObj l ++ " " ++ nm ++ " " ++ serializeObj r
  | .aop nm ops => nm ++ " " ++ serializeOps ops
  | .abinop nm l r => serializeObj l ++ " " ++ nm ++ " " ++ serializeObj r
  | .list _ => ""

def serializeOps : List Obj → String
  | [] => ""
  | o :: os => " " ++ serializeObj o ++ serializeOps os

end

/-- Serialization of a whole circuit body: one statement per line
(`Circuit.serialize`). -/
def Circuit_serialize (b : List Obj) : String :=
  b.foldl (fun acc s => acc ++ serializeObj s ++ "\n") ""

/-! ## Constructor shorthands

One definition per concrete subclass of syntax.py that fixes fields of
its base-class constructor (`EXor("xor", lhs, rhs)` etc.), keeping the
source names. -/

/-- Synthesizable binary xor, class `EXor(EBinOp)`. -/
def EXor (lhs rhs : Obj) : Obj := .ebinop "xor" lhs rhs

/-- Synthesizable binary and, class `EAnd(EBinOp)`. -/
def EAnd (lhs rhs : Obj) : Obj := .ebinop "and" lhs rhs

/-- Synthesizable binary or, class `EOr(EBinOp)`. -/
def EOr (lhs rhs : Obj) : Obj := .ebinop "or" lhs rhs

/-- Arithmetic binary xor, class `Xor(ABinOp)`. -/
def Xor (lhs rhs : Obj) : Obj := .abinop "xor" lhs rhs

/-- Arithmetic binary and, class `And(ABinOp)`. -/
def And (lhs rhs : Obj) : Obj := .abinop "and" lhs rhs

/-- Arithmetic binary or, class `Or(ABinOp)`. -/
def Or (lhs rhs : Obj) : Obj := .abinop "or" lhs rhs

/-- Multiplexer, class `Mux(EOp)`: an `EOp` named `mux` with the three
operands `[s, tOp, fOp]`; it defines no `serialize` override, so it
serializes through the variadic `EOp.serialize`. -/
def Mux (s tOp fOp : Obj) : Obj := .eop "mux" [s, tOp, fOp]

/-- Denotational semantics of `mux` as documented on the `Mux` class:
`[[ mux e1 e2 e3 ]] = ([[e1]] ∧ [[e2]]) ∨ (¬ [[e1]] ∧ [[e3]])`, with
the bit 1 rendered as `true` and 0 as `false`. -/
def mux_denote (s tOp fOp : Bool) : Bool := (s && tOp) || (!s && fOp)

/-! ## Transformer state and object identity -/

/-- State of a `DVRTLTransformer` pass: the `context` field (a list of
`Symbol` objects) plus the allocation counter modelling object
creation order. -/
structure St where
  context : List Obj
  fresh : Nat
  deriving Repr

/-- Python `==` between two `Symbol` objects.  `Symbol` (and every
class above it) defines no `__eq__`, so `==` falls back to `object`
identity, i.e. equality of allocation ids. -/
def Symbol_py_eq (a b : Obj) : Bool :=
  match a, b with
  | .sym i _ _, .sym j _ _ => i == j
  | _, _ => false

/-- Allocation id of a `Symbol` object. -/
def symOid : Obj → Option Nat
  | .sym oid _ _ => some oid
  | _ => none

/-- Name of a `Symbol` object. -/
def symName : Obj → Option String
  | .sym _ nm _ => some nm
  | _ => none

/-- The `expr` field of a `Symbol` object (`Obj.none` otherwise). -/
def symExpr : Obj → Obj
  | .sym _ _ e => e
  | _ => .none

/-- Whether a value is a `Module` instance (`isinstance(v, Module)`). -/
def isModuleObj : Obj → Bool
  | .module _ _ _ _ => true
  | _ => false

/-- Whether a value is a `Contract` instance: `Contract` itself or its
subclasses `PreCond`/`PostCond`. -/
def isContractObj : Obj → Bool
  | .contract _ _ => true
  | .precond _ => true
  | .postcond _ => true
  | _ => false

/-- Whether a value is an `Out` instance. -/
def isOutObj : Obj → Bool
  | .out _ => true
  | _ => false

/-- The comprehension `[s for s in self.context if s == Symbol(name, None)]`
of `DVRTLTransformer.identifier`.  Each loop iteration allocates a fresh
probe `Symbol(name, None)` (allocation id `k`, `k+1`, ...) and compares
it to the context entry with Python `==`, i.e. identity of allocation
ids.  Returns the filtered list and the counter after the loop. -/
def lookupRef : List Obj → Nat → List Obj × Nat
  | [], k => ([], k)
  | s :: rest, k =>
      let tail := lookupRef rest (k + 1)
      (if symOid s == some k then s :: tail.1 else tail.1, tail.2)

/-! ## Transformer productions

Each definition embeds one visitor method of `DVRTLTransformer`, taking
the transformed children list and the pass state.  Tuple unpacking of a
children list of the wrong length raises `ValueError`; indexing an
empty list raises `IndexError`. -/

/-- `DVRTLTransformer.identifier`: unpack the single `Token` child,
run the identity-based context lookup, and return the found symbol or
a fresh unbound `Symbol(name, None)` (one more allocation). -/
def identifierProd : List Obj → St → Except Err (Obj × St)
  | [.token nm], st =>
      let ref := lookupRef st.context st.fresh
      match ref.1 with
      | r :: _ => .ok (r, ⟨st.context, ref.2⟩)
      | [] => .ok (.sym ref.2 nm .none, ⟨st.context, ref.2 + 1⟩)
  | [_], _ => .error .malformedTree
  | _, _ => .error .valueError

/-- Python `list.append`: mutates the list and returns `None`.  The
embedding returns both the extended list and the call's value. -/
def list_append (l : List Obj) (x : Obj) : List Obj × Obj :=
  (l ++ [x], Obj.none)

/-- `DVRTLTransformer.list_of_variables`: unpacks `(c[0], c[1:])` and
returns the value of `[id].append(l_id)`. -/
def list_of_variables : List Obj → Except Err Obj
  | [] => .error .indexError
  | id :: l_id => .ok (list_append [id] (.list l_id)).2

/-- `DVRTLTransformer.list_of_expr`: unpacks `(c[0], c[1:])` and
returns the value of `[e].append(l_e)`. -/
def list_of_expr : List Obj → Except Err Obj
  | [] => .error .indexError
  | e :: l_e => .ok (list_append [e] (.list l_e)).2

/-- `DVRTLTransformer.stmt_seq`: unpacks exactly two children and
returns the value of `[s0].append(s1)`. -/
def stmt_seq : List Obj → Except Err Obj
  | [s0, s1] => .ok (list_append [s0] s1).2
  | _ => .error .valueError

/-- `DVRTLTransformer.reg`: unpack `(id, init, next)`, require `id` to
be a `Symbol`, build `Reg(id.name, init, next)`, fail if `id in
self.context` (identity comparison against each stored symbol), then
append a newly allocated `Symbol(id.name, reg)` to the context. -/
def regProd : List Obj → St → Except Err (Obj × St)
  | [id, init, next], st =>
      match id with
      | .sym oid nm _ =>
          let r := Obj.reg nm init next
          if st.context.any (fun s => symOid s == some oid) then
            .error .duplicateDefinition
          else
            .ok (r, ⟨st.context ++ [.sym st.fresh nm r], st.fresh + 1⟩)
      | _ => .error .malformedTree
  | _, _ => .error .valueError

/-- `DVRTLTransformer.bind`: unpack `(id, e)`, require `id` to be a
`Symbol`, build `Bind(id.name, e)`, run the same identity-based
duplicate check as `reg`, then append `Symbol(id.name, bind)`. -/
def bindProd : List Obj → St → Except Err (Obj × St)
  | [id, e], st =>
      match id with
      | .sym oid nm _ =>
          let b := Obj.bind nm e
          if st.context.any (fun s => symOid s == some oid) then
            .error .duplicateDefinition
          else
            .ok (b, ⟨st.context ++ [.sym st.fresh nm b], st.fresh + 1⟩)
      | _ => .error .malformedTree
  | _, _ => .error .valueError

/-- `Inst.__init__(self, c, m, args)` from syntax.py: if `c` is a
`Symbol` its `expr` must be a `Module` (else the non-callable assertion
fails); `self.m` is `c.expr` when `c` is such a symbol and the `m`
argument otherwise (for every non-`Symbol` `c`, with no check on `c`
itself); `len(self.m.args)` succeeds when `self.m` is a `Module` or an
`Inst` — the two classes of syntax.py defining an `args` field — and
raises `AttributeError` otherwise; finally the argument count must
equal `len(self.m.args)` (else the arity assertion fails). -/
def Inst_init (c m : Obj) (args : List Obj) : Except Err Obj :=
  match c with
  | .sym oid nm cExpr =>
      match cExpr with
      | .module ma mc ms mo =>
          if ma.length = args.length then
            .ok (.inst (.sym oid nm cExpr) (.module ma mc ms mo) args)
          else
            .error .arityMismatch
      | _ => .error .nonCallable
  | _ =>
      match m with
      | .module ma mc ms mo =>
          if ma.length = args.length then
            .ok (.inst c (.module ma mc ms mo) args)
          else
            .error .arityMismatch
      | .inst ic im iargs =>
          if iargs.length = args.length then
            .ok (.inst c (.inst ic im iargs) args)
          else
            .error .arityMismatch
      | _ => .error .attributeError

/-- A Python call `Inst(...)` with a positional argument list:
`Inst.__init__` declares three required parameters after `self`, so any
other arity raises `TypeError` before the body runs. -/
def Inst_call : List Obj → Except Err Obj
  | [c, m, .list xs] => Inst_init c m xs
  | [_, _, _] => .error .typeError
  | _ => .error .typeError

/-- The resolved callee of `Inst.__init__` when it is a `Module`:
`c.expr` when `c` is a symbol bound to a module, `m` when `c` is not a
symbol and `m` is a module, and nothing otherwise.  This is the case
the transformer's call path supplies and the arity claim speaks about;
the full `self.m` value, module or not, is `instSelfM`. -/
def calleeModule (c m : Obj) : Option Obj :=
  match c with
  | .sym _ _ cExpr => if isModuleObj cExpr then some cExpr else none
  | _ => if isModuleObj m then some m else none

/-- The value `Inst.__init__` stores as `self.m` and measures with
`len(self.m.args)`: `c.expr` when `c` is a symbol bound to a module
(`none` when the non-callable assertion fires first), and the `m`
argument unconditionally when `c` is not a symbol. -/
def instSelfM (c m : Obj) : Option Obj :=
  match c with
  | .sym _ _ cExpr => if isModuleObj cExpr then some cExpr else none
  | _ => some m

/-- Number of elements of a value's `args` attribute: `Module` and
`Inst` are the two classes of syntax.py defining `self.args`; on every
other value `len(v.args)` raises `AttributeError`. -/
def pyArgsLen : Obj → Option Nat
  | .module ma _ _ _ => some ma.length
  | .inst _ _ iargs => some iargs.length
  | _ => none

/-- `DVRTLTransformer.call`: unpack `(c[0], c[1:])`, require the head
to be a `Symbol`, collect `s.expr` for every context symbol whose
(string) name equals the callee name and whose `expr` is a `Module`,
fail if none was found, and call `Inst(mods[0], l_e)` — a two-argument
call of the three-parameter `Inst.__init__`. -/
def callProd : List Obj → St → Except Err (Obj × St)
  | [], _ => .error .indexError
  | id :: l_e, st =>
      match id with
      | .sym _ nm _ =>
          let mods := (st.context.filter
              (fun s => symName s == some nm && isModuleObj (symExpr s))).map symExpr
          match mods with
          | [] => .error .unknownModule
          | m0 :: _ => (Inst_call [m0, .list l_e]).map (fun i => (i, st))
      | _ => .error .malformedTree

/-- Modelled from the spec: the `Body` value built by
`DVRTLTransformer.body` is called in transformer.py but defined
nowhere under src/; per the data model a module body is the pair
`([Stmt], Option Out)`, which the embedding renders as the `Obj.body`
constructor (`Obj.none` standing for an absent output). -/
def Body (stmts : List Obj) (ot : Obj) : Obj := .body stmts ot

/-- `Module.__init__(self, args, contract, body)` from syntax.py:
stores the fields and unpacks `(self.stmts, self.out) = self.body`.
The unpack accepts any two-element iterable; the only such value a
transform pass can place in the body slot is the spec-modelled `Body`
pair (the list productions return `None`, so no raw Python list ever
reaches this constructor, and the other possible children — `Out`
nodes, statements, `None` — are not two-element iterables), hence the
embedding unpacks `Obj.body` and renders every other reachable value
as the `TypeError` the unpack raises on it. -/
def Module_init (args : List Obj) (contract : Obj) (body : Obj) : Except Err Obj :=
  match body with
  | .body ss ot => .ok (.module args contract ss ot)
  | _ => .error .typeError

/-- `DVRTLTransformer.body`: unpack `(l_s, out) = (c[0:-2], c[-1])`
(note `c[0:-2]` silently drops the penultimate child), then if the last
child is not an `Out` append it to the statement list, else record it
as the output, and build `Body(l_s, out_res)`. -/
def bodyProd (c : List Obj) : Except Err Obj :=
  match c with
  | [] => .error .indexError
  | _ =>
      let l_s := c.take (c.length - 2)
      let outc := c.getD (c.length - 1) .none
      if isOutObj outc then .ok (Body l_s outc)
      else .ok (Body (l_s ++ [outc]) .none)

/-- `DVRTLTransformer.module`: unpack
`(l_v, cntr, b) = (c[0:-2], c[-2], c[-1])` (an `IndexError` when there
are fewer than two children), then if the penultimate child is not a
`Contract` append it to `l_v` — the parameter list — and pass no
contract, else pass it as the contract; finally `Module(l_v, cntr_res, b)`. -/
def moduleProd (c : List Obj) : Except Err Obj :=
  if c.length < 2 then .error .indexError
  else
    let l_v := c.take (c.length - 2)
    let cntr := c.getD (c.length - 2) .none
    let b := c.getD (c.length - 1) .none
    if isContractObj cntr then Module_init l_v cntr b
    else Module_init (l_v ++ [cntr]) .none b

/-- `DVRTLTransformer.out`: wrap the single child in `Out`. -/
def outProd : List Obj → Except Err Obj
  | [e] => .ok (.out e)
  | _ => .error .valueError

/-- `Circuit.__init__(self, body)` from syntax.py called with a
positional argument list: the constructor declares exactly one
parameter after `self` and stores it, so any other arity raises
`TypeError`. -/
def Circuit_init : List Obj → Except Err Obj
  | [b] => .ok (.circuit b)
  | _ => .error .typeError

/-- `DVRTLTransformer.start`: `Circuit(l_s, self.context)` — a
two-argument call of the one-parameter `Circuit.__init__`. -/
def startProd (l_s : List Obj) (st : St) : Except Err (Obj × St) :=
  (Circuit_init [.list l_s, .list st.context]).map (fun c => (c, st))

/-! ## The parse tree walk -/

/-- A lark parse tree: a labeled rule node with ordered children, or a
raw token leaf. -/
inductive PTree where
  | tok (s : String)
  | node (lbl : String) (children : List PTree)
  deriving Repr

/-- Dispatch of one grammar production to its visitor, by rule label,
exactly the method set of `DVRTLTransformer`.  Three visitors always
fail after a successful unpack: `add`/`sub`/`eq` call `Add(a0, a1)`
etc., two positional arguments for the three-parameter
`ABinOp`-style `__init__(self, name, lhs, rhs)` these classes inherit,
raising `TypeError`; `arith_not` calls the undefined name `Not`,
raising `NameError`.  Rules without a visitor are left untransformed
by lark; the embedding maps them to `malformedTree` since no tree of
interest contains one. -/
def applyProd (lbl : String) (c : List Obj) (st : St) : Except Err (Obj × St) :=
  if lbl == "identifier" then identifierProd c st
  else if lbl == "list_of_variables" then (list_of_variables c).map (fun v => (v, st))
  else if lbl == "list_of_expr" then (list_of_expr c).map (fun v => (v, st))
  else if lbl == "zero" then .ok (.zero, st)
  else if lbl == "one" then .ok (.one, st)
  else if lbl == "expr_xor" then
    match c with
    | [e0, e1] => .ok (EXor e0 e1, st)
    | _ => .error .valueError
  else if lbl == "expr_and" then
    match c with
    | [e0, e1] => .ok (EAnd e0 e1, st)
    | _ => .error .valueError
  else if lbl == "expr_or" then
    match c with
    | [e0, e1] => .ok (EOr e0 e1, st)
    | _ => .error .valueError
  else if lbl == "mux" then
    match c with
    | [s, e0, e1] => .ok (Mux s e0 e1, st)
    | _ => .error .valueError
  else if lbl == "scoped_expr" then
    match c with
    | [e] => .ok (e, st)
    | _ => .error .valueError
  else if lbl == "call" then callProd c st
  else if lbl == "arith_xor" then
    match c with
    | [a0, a1] => .ok (Xor a0 a1, st)
    | _ => .error .valueError
  else if lbl == "arith_and" then
    match c with
    | [a0, a1] => .ok (And a0 a1, st)
    | _ => .error .valueError
  else if lbl == "arith_or" then
    match c with
    | [a0, a1] => .ok (Or a0 a1, st)
    | _ => .error .valueError
  else if lbl == "impl" then
    match c with
    | [a0, a1] => .ok (.abinop "impl" a0 a1, st)
    | _ => .error .valueError
  else if lbl == "add" then
    match c with
    | [_, _] => .error .typeError
    | _ => .error .valueError
  else if lbl == "sub" then
    match c with
    | [_, _] => .error .typeError
    | _ => .error .valueError
  else if lbl == "eq" then
    match c with
    | [_, _] => .error .typeError
    | _ => .error .valueError
  else if lbl == "arith_not" then
    match c with
    | [_] => .error .nameError
    | _ => .error .valueError
  else if lbl == "scoped_arith" then
    match c with
    | [a] => .ok (a, st)
    | _ => .error .valueError
  else if lbl == "res" then .ok (.res, st)
  else if lbl == "precond" then
    match c with
    | [a] => .ok (.precond a, st)
    | _ => .error .valueError
  else if lbl == "postcond" then
    match c with
    | [a] => .ok (.postcond a, st)
    | _ => .error .valueError
  else if lbl == "contract" then
    match c with
    | [pre, post] => .ok (.contract pre post, st)
    | _ => .error .valueError
  else if lbl == "out" then (outProd c).map (fun v => (v, st))
  else if lbl == "body" then (bodyProd c).map (fun v => (v, st))
  else if lbl == "module" then (moduleProd c).map (fun v => (v, st))
  else if lbl == "reg" then regProd c st
  else if lbl == "bind" then bindProd c st
  else if lbl == "stmt_assert" then
    match c with
    | [a] => .ok (.verif "assert" a, st)
    | _ => .error .valueError
  else if lbl == "stmt_assume" then
    match c with
    | [a] => .ok (.verif "assume" a, st)
    | _ => .error .valueError
  else if lbl == "ano_module" then
    match c with
    | [m] => .ok (m, st)
    | _ => .error .valueError
  else if lbl == "stmt_seq" then (stmt_seq c).map (fun v => (v, st))
  else if lbl == "start" then startProd c st
  else .error .malformedTree

/-- The lark `Transformer` walk: strictly bottom-up, children left to
right, threading the pass state; token leaves are passed through as
`Token` values.  The `Nat` argument bounds the recursion depth (an
embedding artifact; every theorem below supplies enough fuel for its
concrete tree). -/
def transformTreeF : Nat → PTree → St → Except Err (Obj × St)
  | 0, _, _ => .error .outOfFuel
  | _ + 1, .tok s, st => .ok (.token s, st)
  | fuel + 1, .node lbl cs, st => do
      let r ← cs.foldlM
        (fun (acc : List Obj × St) t => do
          let v ← transformTreeF fuel t acc.2
          pure (acc.1 ++ [v.1], v.2))
        ([], st)
      applyProd lbl r.1 r.2

/-! ## Concrete programs and trees used by the claims -/

/-- Whether a value is a `Symbol` instance. -/
def isSymObj : Obj → Bool
  | .sym _ _ _ => true
  | _ => false

/-- Parse tree of the register statement `A -> v, A` (shape taken from
the pretty-printed trees in the repository's parser tests), with `v`
the label of the literal child (`zero` or `one`). -/
def treeRegA (v : String) : PTree :=
  .node "reg" [.node "identifier" [.tok "A"], .node v [], .node "identifier" [.tok "A"]]

/-- Parse tree of the program `A -> 0, A ; A -> 1, A`: two registers
both named `A`. -/
def treeC2 : PTree := .node "start" [treeRegA "zero", treeRegA "one"]

/-- The one-register circuit `Circuit([Reg("A", Zero(), One())])`. -/
def circuitMini : List Obj := [.reg "A" .zero .one]

/-- Parse tree of the serialized text of `circuitMini`, namely of
`A -> 0, 1` (shape taken from the repository's parser tests). -/
def treeMini : PTree :=
  .node "start" [.node "reg" [.node "identifier" [.tok "A"], .node "zero" [], .node "one" []]]

/-- Modelled from the spec: the external grammar/tokenizer (out of
scope of the core, absent from src/) turns source text into a labeled
parse tree; on the serialization of the one-register circuit it yields
the `start`/`reg`/`identifier`-`zero`-`one` tree shown by the
repository's parser tests, and this model defines it on exactly that
input. -/
def parseDv (s : String) : Option PTree :=
  if s = "A -> 0, 1\n" then some treeMini else none

/-- A symbol bound to a two-parameter module, as the context holds it
after `add2 = mod(a,b){a xor b}` (parameter and body details are
irrelevant to arity). -/
def add2Sym : Obj := .sym 0 "add2" (.module [.none, .none] .none [] .none)

/-! ## Helper lemmas -/

lemma append_five (a b c d e : String) :
    a ++ b ++ c ++ d ++ e = a ++ (b ++ c ++ d) ++ e := by
  simp only [String.append_assoc]

/-- Case analysis of `Inst.__init__` through the `self.m` value it
resolves: the non-callable assertion fires when no `self.m` exists
(symbol bound to a non-module); `len(self.m.args)` raises
`AttributeError` when `self.m` defines no `args`; otherwise the arity
check against `len(self.m.args)` decides the result. -/
lemma Inst_init_cases (c m : Obj) (args : List Obj) :
    Inst_init c m args =
      match instSelfM c m with
      | Option.none => .error .nonCallable
      | some m2 =>
          match pyArgsLen m2 with
          | Option.none => .error .attributeError
          | some n =>
              if n = args.length then .ok (.inst c m2 args)
              else .error .arityMismatch := by
  cases c <;> try (cases m <;> rfl)
  case sym oid nm cExpr => cases cExpr <;> rfl

/-- A resolved callee module is in particular the stored `self.m`. -/
lemma instSelfM_of_calleeModule (c m v : Obj) (h : calleeModule c m = some v) :
    instSelfM c m = some v := by
  cases c <;> simp only [calleeModule, instSelfM] at h ⊢ <;>
    first
      | exact h
      | (split at h <;> simp_all)

lemma length_append_two (l_v : List Obj) (a b : Obj) :
    (l_v ++ [a, b]).length = l_v.length + 2 := by
  simp

lemma take_append_two (l_v : List Obj) (a b : Obj) :
    (l_v ++ [a, b]).take ((l_v ++ [a, b]).length - 2) = l_v := by
  rw [length_append_two]
  simp

lemma getD_append_two_penult (l_v : List Obj) (a b : Obj) :
    (l_v ++ [a, b]).getD ((l_v ++ [a, b]).length - 2) Obj.none = a := by
  rw [length_append_two]
  simpa using List.getD_append_right l_v [a, b] Obj.none l_v.length (le_refl _)

lemma getD_append_two_last (l_v : List Obj) (a b : Obj) :
    (l_v ++ [a, b]).getD ((l_v ++ [a, b]).length - 1) Obj.none = b := by
  rw [length_append_two]
  have h2 : l_v.length + 2 - 1 = l_v.length + 1 := by omega
  rw [h2]
  simpa using List.getD_append_right l_v [a, b] Obj.none (l_v.length + 1) (by omega)

/-! ## Claims -/

/-- Claim C1: the claim says that `start` constructs and returns the
final `Circuit(statementList, context)`.  In fact `Circuit.__init__`
accepts a single `body` argument, so the two-argument call in `start`
raises `TypeError` on every input: no transform pass ever returns a
`Circuit`, let alone one carrying the context. -/
theorem C1_start_typeerror : ∀ (l_s : List Obj) (st : St),
    startProd l_s st = .error .typeError := by
  intro l_s st
  rfl

/-- Claim C2: the claim says transforming `A -> 0, A ; A -> 1, A`
aborts with `DuplicateDefinition`.  In fact `Symbol` has no `__eq__`,
so the membership test `id in self.context` compares object identities
and never fires: the second register named `A` is accepted (second
conjunct: starting from the state left by the first register, the
second `reg` production succeeds and the context ends with two symbols
both named `A`), and the whole transform fails only at `start` with
`TypeError`, a different error (first and third conjuncts). -/
theorem C2_duplicate_not_rejected :
    transformTreeF 10 treeC2 ⟨[], 0⟩ = .error .typeError
    ∧ transformTreeF 10 (treeRegA "one")
        ⟨[.sym 2 "A" (.reg "A" .zero (.sym 1 "A" .none))], 3⟩
      = .ok (.reg "A" .one (.sym 6 "A" .none),
          ⟨[.sym 2 "A" (.reg "A" .zero (.sym 1 "A" .none)),
            .sym 7 "A" (.reg "A" .one (.sym 6 "A" .none))], 8⟩)
    ∧ Err.typeError ≠ Err.duplicateDefinition :=
  ⟨rfl, rfl, by decide⟩

/-- Claim C3: the claim says a call whose callee has no module binding
fails with `UnknownModule` (first conjunct: this part holds), and that
otherwise an `Inst` node is returned.  In fact the success path calls
`Inst(mods[0], l_e)` with two arguments while `Inst.__init__` declares
three, so even with a module bound to `foo` in the context the call
production raises `TypeError` instead of returning an `Inst` (second
conjunct). -/
theorem C3_call_unknownmodule_or_typeerror :
    callProd [.sym 9 "x" .none, .none] ⟨[], 0⟩ = .error .unknownModule
    ∧ callProd [.sym 9 "foo" .none, .none]
        ⟨[.sym 0 "foo" (.module [.none] .none [] (.out .zero))], 1⟩
      = .error .typeError :=
  ⟨rfl, rfl⟩

/-- Claim C4: `Inst.__init__` checks the argument count against
`len(self.m.args)`: when the resolved callee module's parameter list
has a different length than the argument list the constructor fails
with the arity assertion (first part), and every successfully
constructed `Inst` stores the original callee, the supplied argument
list, and a `self.m` whose `args` attribute counts exactly the
supplied arguments (second part) — so any `Inst` reachable inside a
produced circuit satisfies the arity invariant
`len(instance.args) = len(instance.m.args)`. -/
theorem C4_inst_arity_invariant : ∀ (c m : Obj) (args : List Obj),
    (∀ ma mc ms mo, calleeModule c m = some (.module ma mc ms mo) →
        ma.length ≠ args.length → Inst_init c m args = .error .arityMismatch)
    ∧ (∀ r, Inst_init c m args = .ok r → ∃ m2,
        r = .inst c m2 args ∧ pyArgsLen m2 = some args.length) := by
  intro c m args
  rw [Inst_init_cases]
  constructor
  · intro ma mc ms mo hcal hne
    rw [instSelfM_of_calleeModule c m _ hcal]
    simp [pyArgsLen, hne]
  · intro r h
    split at h
    · simp at h
    · rename_i m2 hm
      split at h
      · simp at h
      · rename_i n hn
        split at h
        · rename_i hlen
          exact ⟨m2, (Except.ok.inj h).symm, by rw [hn, hlen]⟩
        · simp at h

/-- Witness for C4: instantiating a two-parameter module with one
argument fails with the arity error, and with two arguments it
succeeds producing an `Inst` whose stored `self.m` counts exactly two
parameters. -/
theorem C4_inst_arity_invariant_witness :
    Inst_init add2Sym .none [Obj.zero] = .error .arityMismatch
    ∧ ∃ m2,
        Obj.inst add2Sym (.module [Obj.none, Obj.none] .none [] .none) [Obj.zero, Obj.one]
          = .inst add2Sym m2 [Obj.zero, Obj.one]
        ∧ pyArgsLen m2 = some [Obj.zero, Obj.one].length :=
  ⟨(C4_inst_arity_invariant add2Sym .none [Obj.zero]).1
      [Obj.none, Obj.none] .none [] .none rfl (by decide),
   (C4_inst_arity_invariant add2Sym .none [Obj.zero, Obj.one]).2
      (.inst add2Sym (.module [Obj.none, Obj.none] .none [] .none) [Obj.zero, Obj.one]) rfl⟩

/-- Claim C5: the claim says two symbols are equal iff their names are
equal and that the identifier production returns the stored symbol of
a bound name.  In fact `Symbol` inherits identity `==`: two distinct
symbol objects with the same name compare unequal (first conjunct), so
the identifier lookup never finds anything and, even with `A` bound in
the context, returns a freshly allocated unbound `Symbol("A", None)`
(second conjunct) that is not identical to the stored one (third
conjunct). -/
theorem C5_symbol_identity_equality :
    Symbol_py_eq (.sym 0 "A" .none) (.sym 1 "A" .none) = false
    ∧ identifierProd [.token "A"] ⟨[.sym 0 "A" (.reg "A" .zero .one)], 1⟩
        = .ok (.sym 2 "A" .none, ⟨[.sym 0 "A" (.reg "A" .zero .one)], 3⟩)
    ∧ Symbol_py_eq (.sym 2 "A" .none) (.sym 0 "A" (.reg "A" .zero .one)) = false :=
  ⟨rfl, rfl, rfl⟩

/-- Counterexample for C6: the claim says a non-`Contract` child in the
contract slot is reinterpreted as the first body statement of the
resulting module.  On the children `[None, Bind("x",1), Body([0],None)]`
the module production instead appends the bind statement to the
parameter list: the produced module has parameters `[None, Bind]` and
body statements `[0]`, not the module the claim demands (parameters
`[None]`, body `[Bind, 0]`). -/
theorem C6_contract_slot_counterexample :
    moduleProd [Obj.none, .bind "x" .one, .body [.zero] .none]
      = .ok (.module [Obj.none, .bind "x" .one] .none [.zero] .none)
    ∧ Obj.module [Obj.none, .bind "x" .one] .none [.zero] .none
        ≠ Obj.module [Obj.none] .none [.bind "x" .one, .zero] .none :=
  ⟨rfl, by simp⟩

/-- Claim C6 as amended: the module production disambiguates the
optional contract structurally — if the penultimate child is a
`Contract` it becomes the module's contract, the preceding children the
parameters, and the module body is unpacked from the last child; if it
is not a `Contract`, the module gets no contract and the contract-slot
child is appended to the parameter list (it does not become a body
statement). -/
theorem C6_contract_slot_amended : ∀ (l_v : List Obj) (cntr : Obj) (ss : List Obj) (ot : Obj),
    (isContractObj cntr = true →
        moduleProd (l_v ++ [cntr, .body ss ot]) = .ok (.module l_v cntr ss ot))
    ∧ (isContractObj cntr = false →
        moduleProd (l_v ++ [cntr, .body ss ot]) = .ok (.module (l_v ++ [cntr]) .none ss ot)) := by
  intro l_v cntr ss ot
  have hnotlt : ¬ ((l_v ++ [cntr, Obj.body ss ot]).length < 2) := by
    rw [length_append_two]; omega
  constructor
  · intro hc
    simp only [moduleProd, hnotlt, if_false, take_append_two,
      getD_append_two_penult, getD_append_two_last, hc, if_true]
    rfl
  · intro hc
    simp only [moduleProd, hnotlt, if_false, take_append_two,
      getD_append_two_penult, getD_append_two_last, hc]
    simp [Module_init]

/-- Witness for C6 as amended: a `Contract` penultimate child becomes
the contract of the produced module; a `Bind` penultimate child is
appended to its parameter list. -/
theorem C6_contract_slot_amended_witness :
    moduleProd [Obj.none, .contract (.precond .one) (.postcond .res), .body [.zero] .none]
      = .ok (.module [Obj.none] (.contract (.precond .one) (.postcond .res)) [.zero] .none)
    ∧ moduleProd [Obj.none, .bind "y" .one, .body [] .none]
      = .ok (.module [Obj.none, .bind "y" .one] .none [] .none) :=
  ⟨(C6_contract_slot_amended [Obj.none] (.contract (.precond .one) (.postcond .res))
      [.zero] .none).1 rfl,
   (C6_contract_slot_amended [Obj.none] (.bind "y" .one) [] .none).2 rfl⟩

/-- Claim C7: the claim states the round-trip law
`transform(parse(serialize(c))) == c`.  For the valid one-register
circuit `circuitMini`, serialization produces `A -> 0, 1` plus newline
(first conjunct, from the source `serialize`), the external grammar
(modelled from the spec) parses it to `treeMini` (second conjunct), and
the transform of that tree aborts with `TypeError` at the `start`
production (third conjunct) — so the round-trip yields no circuit at
all, refuting the law. -/
theorem C7_roundtrip_failure :
    Circuit_serialize circuitMini = "A -> 0, 1\n"
    ∧ parseDv (Circuit_serialize circuitMini) = some treeMini
    ∧ transformTreeF 10 treeMini ⟨[], 0⟩ = .error .typeError :=
  ⟨rfl, rfl, rfl⟩

/-- Counterexample for C8: the claim says xor/and/or nodes at both the
`Expr` and `Arith` level serialize in prefix form
`<op> <operand1> <operand2>`.  In fact all xor/and/or nodes are
binary-operator subclasses whose overridden `serialize` is infix: both
`EXor(0,1)` and the arithmetic `Xor(0,1)` serialize to `0 xor 1`, which
is not the prefix form `xor 0 1`. -/
theorem C8_binop_serialize_counterexample :
    serializeObj (EXor .zero .one) = "0 xor 1"
    ∧ serializeObj (Xor .zero .one) = "0 xor 1"
    ∧ ("0 xor 1" : String) ≠ "xor 0 1" :=
  ⟨rfl, rfl, by decide⟩

/-- Claim C8 as amended: the binary xor/and/or classes at both the
`Expr` and the `Arith` level serialize infix, `<lhs> <op> <rhs>`,
through the `EBinOp`/`ABinOp` override of `serialize`; only the generic
variadic `EOp`/`AOp` base serialization is prefix, and it emits a space
before every operand (hence two spaces after the operator name). -/
theorem C8_binop_serialize_amended : ∀ (l r o : Obj) (nm : String) (ops : List Obj),
    serializeObj (EXor l r) = serializeObj l ++ " xor " ++ serializeObj r
    ∧ serializeObj (EAnd l r) = serializeObj l ++ " and " ++ serializeObj r
    ∧ serializeObj (EOr l r) = serializeObj l ++ " or " ++ serializeObj r
    ∧ serializeObj (Xor l r) = serializeObj l ++ " xor " ++ serializeObj r
    ∧ serializeObj (And l r) = serializeObj l ++ " and " ++ serializeObj r
    ∧ serializeObj (Or l r) = serializeObj l ++ " or " ++ serializeObj r
    ∧ serializeObj (.eop nm ops) = nm ++ " " ++ serializeOps ops
    ∧ serializeObj (.aop nm ops) = nm ++ " " ++ serializeOps ops
    ∧ serializeOps (o :: ops) = " " ++ serializeObj o ++ serializeOps ops := by
  intro l r o nm ops
  refine ⟨?_, ?_, ?_, ?_, ?_, ?_, rfl, rfl, rfl⟩
  · show serializeObj l ++ " " ++ "xor" ++ " " ++ serializeObj r = _
    rw [append_five]; rfl
  · show serializeObj l ++ " " ++ "and" ++ " " ++ serializeObj r = _
    rw [append_five]; rfl
  · show serializeObj l ++ " " ++ "or" ++ " " ++ serializeObj r = _
    rw [append_five]; rfl
  · show serializeObj l ++ " " ++ "xor" ++ " " ++ serializeObj r = _
    rw [append_five]; rfl
  · show serializeObj l ++ " " ++ "and" ++ " " ++ serializeObj r = _
    rw [append_five]; rfl
  · show serializeObj l ++ " " ++ "or" ++ " " ++ serializeObj r = _
    rw [append_five]; rfl

/-- Counterexample for C9: the claim says
`serialize(Mux(One(), Zero(), One()))` yields exactly `mux 1 0 1`.  In
fact the variadic `EOp.serialize` fold puts a space before each
operand, producing `mux` followed by two spaces, which differs from the
claimed string. -/
theorem C9_mux_serialize_counterexample :
    serializeObj (Mux .one .zero .one) = "mux  1 0 1"
    ∧ ("mux  1 0 1" : String) ≠ "mux 1 0 1" :=
  ⟨rfl, by decide⟩

/-- Claim C9 as amended: `serialize(Mux(One(), Zero(), One()))` yields
`mux` followed by two spaces and `1 0 1` (the operand fold prefixes
every operand with a space), and the declared denotation
`(s ∧ t) ∨ (¬s ∧ f)` at selector 1, true-branch 0, false-branch 1
evaluates to 0. -/
theorem C9_mux_serialize_amended :
    serializeObj (Mux .one .zero .one) = "mux  1 0 1"
    ∧ mux_denote true false true = false :=
  ⟨rfl, rfl⟩

/-- Claim C10: the three list-building productions return the value of
`list.append`, which is always `None`: `list_of_variables` and
`list_of_expr` return `None` on every nonempty children list, and
`stmt_seq` returns `None` on every two-element children list. -/
theorem C10_list_productions_none :
    (∀ c : List Obj, c ≠ [] → list_of_variables c = .ok .none)
    ∧ (∀ c : List Obj, c ≠ [] → list_of_expr c = .ok .none)
    ∧ (∀ s0 s1 : Obj, stmt_seq [s0, s1] = .ok .none) := by
  refine ⟨?_, ?_, ?_⟩
  · intro c h
    cases c with
    | nil => exact absurd rfl h
    | cons a l => rfl
  · intro c h
    cases c with
    | nil => exact absurd rfl h
    | cons a l => rfl
  · intro s0 s1
    rfl

/-- Witness for C10: all three productions return `None` on concrete
children lists. -/
theorem C10_list_productions_none_witness :
    list_of_variables [Obj.token "a"] = .ok .none
    ∧ list_of_expr [Obj.zero, Obj.one] = .ok .none
    ∧ stmt_seq [Obj.zero, Obj.one] = .ok .none :=
  ⟨C10_list_productions_none.1 [Obj.token "a"] (by simp),
   C10_list_productions_none.2.1 [Obj.zero, Obj.one] (by simp),
   C10_list_productions_none.2.2 Obj.zero Obj.one⟩

end DV


